import Mathlib

/-!
Shallow embedding of `src/covid19_vacc.py` (class `VaccinationDataETL`).

Modelling conventions:
* pandas numeric cells are `Option ℚ` (`none` = missing / NaN as parsed from CSV);
  values produced by arithmetic live in `PVal`, which also has the IEEE
  non-finite results `pinf`, `ninf`, `nan` that a pandas division can produce.
* The `date` column holds text after column selection and calendar dates after
  `pd.to_datetime`; `DateVal` distinguishes the two stages.  `pd.to_datetime`
  raises on the whole column when any value is unparseable, which we model as
  the `StageOutcome.exn` outcome (an exception that `transform` does not catch).
* Console output is modelled as a list of structured `LogEntry` values, in
  print order.
* The SQLite database is a `DB` record holding the single table
  `vaccination_data` and whether the index `idx_location_date` exists.
* HTTP is a fixed response for the configured URL (`HttpWorld`); `extract`
  counts the GET requests it issues (`requests.get` plus the URL fetch that
  `pd.read_csv(self.url)` performs).
-/

namespace Covid19Vacc

/-- Result of a numeric computation on pandas cells: a rational number or one
of the IEEE special values that float division can produce. -/
inductive PVal where
  | num (q : ℚ)
  | pinf
  | ninf
  | nan
deriving DecidableEq

/-- A calendar date as produced by date parsing. -/
structure CalDate where
  year : Nat
  month : Nat
  day : Nat
deriving DecidableEq

/-- The `date` column cell: raw text before `pd.to_datetime` (line 50),
a calendar date (or NaT, modelled `parsed none`) after it. -/
inductive DateVal where
  | raw (s : Option String)
  | parsed (d : Option CalDate)
deriving DecidableEq

/-- One row of the fetched CSV, restricted to the five columns the program
reads; `none` is a missing value.  Validity of a field is governed by the
dataset's column list. -/
structure RawRow where
  location : Option String
  date : Option String
  people_vaccinated : Option ℚ
  people_fully_vaccinated : Option ℚ
  population : Option ℚ
deriving DecidableEq

/-- The in-memory table produced by `pd.read_csv`: its column labels and its
rows (rows carry only the five columns the program ever reads). -/
structure RawDataset where
  columns : List String
  rows : List RawRow
deriving DecidableEq

/-- One row of `self.processed_data`.  The `vaccination_rate` column does not
exist until line 53 creates it; before that the field holds the placeholder
`PVal.nan` and no code reads it. -/
structure ProcessedRow where
  location : Option String
  date : DateVal
  people_vaccinated : Option ℚ
  people_fully_vaccinated : Option ℚ
  population : Option ℚ
  vaccination_rate : PVal
deriving DecidableEq

/-- The mutable fields of the `VaccinationDataETL` instance. -/
structure ETLState where
  url : String
  raw_data : Option RawDataset
  processed_data : Option (List ProcessedRow)
deriving DecidableEq

/-- Console output, one constructor per print statement of the source. -/
inductive LogEntry where
  | startingPipeline
  | extractedRecords (n : Nat)
  | errorExtraction
  | noDataToTransform
  | availableColumns (cols : List String)
  | missingColumn (missing : List String)
  | checkColumnName
  | transformedRecords (n : Nat)
  | noProcessedData
  | dataLoaded (path : String)
  | errorLoading
  | pipelineDuration
deriving DecidableEq

/-- How a Python call ends: a normal `return` of a boolean, or an uncaught
exception propagating to the caller. -/
inductive StageOutcome where
  | ret (b : Bool)
  | exn
deriving DecidableEq

/-- The three pipeline stages, for recording which ones a run invoked. -/
inductive Stage where
  | extractS
  | transformS
  | loadS
deriving DecidableEq

/-- The SQLite database file: the one table the program writes and whether
the index `idx_location_date` exists on it. -/
structure DB where
  vaccination_data : Option (List ProcessedRow)
  idx_location_date : Bool
deriving DecidableEq

/-- Row count of the persisted table, when the table exists. -/
def dbRowCount (db : DB) : Option Nat :=
  db.vaccination_data.map List.length

/-- The (fixed) HTTP response the configured URL yields: its status code and
the result of parsing its body as CSV (`none` = unparseable body). -/
structure HttpResponse where
  status : Nat
  csv : Option RawDataset
deriving DecidableEq

/-- The network as `extract` sees it: one response for the configured URL. -/
structure HttpWorld where
  resp : HttpResponse
deriving DecidableEq

/-- `response.raise_for_status()` raises exactly for 4xx/5xx codes. -/
def statusOk (s : Nat) : Bool := s < 400

/-- What `extract` (lines 12-24) produces: the returned boolean, the updated
instance state, the number of HTTP GET requests issued, and the console
output. -/
structure ExtractResult where
  success : Bool
  state : ETLState
  getCount : Nat
  log : List LogEntry
deriving DecidableEq

/-- `VaccinationDataETL.extract` (lines 12-24).  `requests.get(self.url)` is
one GET; `raise_for_status` turns a 4xx/5xx status into an exception caught
by the `except` block.  On a success status, `pd.read_csv(self.url)` fetches
the URL again (a second GET) and parses that body; a parse failure is also
caught and returns `False`. -/
def extract (st : ETLState) (w : HttpWorld) : ExtractResult :=
  if statusOk w.resp.status = false then
    { success := false, state := st, getCount := 1, log := [LogEntry.errorExtraction] }
  else
    match w.resp.csv with
    | none =>
        { success := false, state := st, getCount := 2, log := [LogEntry.errorExtraction] }
    | some rd =>
        { success := true, state := { st with raw_data := some rd }, getCount := 2,
          log := [LogEntry.extractedRecords rd.rows.length] }

/-- The five columns selected at lines 38-43. -/
def requiredColumns : List String :=
  ["location", "date", "people_vaccinated", "people_fully_vaccinated", "population"]

/-- The required columns absent from the dataset; `df[[cols]]` raises
`KeyError` naming exactly these when the list is nonempty. -/
def missingColumns (rd : RawDataset) : List String :=
  requiredColumns.filter (fun c => ¬ rd.columns.contains c)

/-- Split a character list at the dashes. -/
def splitDash : List Char → List (List Char)
  | [] => [[]]
  | c :: cs =>
      let r := splitDash cs
      if c = '-' then [] :: r
      else
        match r with
        | [] => [[c]]
        | g :: gs => (c :: g) :: gs

/-- Read a nonempty digit string as a natural number. -/
def digitsVal : List Char → Nat → Nat
  | [], acc => acc
  | c :: cs, acc => digitsVal cs (10 * acc + (c.toNat - 48))

/-- Parse a digit group; `none` when empty or containing a non-digit. -/
def parseNatDigits (cs : List Char) : Option Nat :=
  if cs ≠ [] ∧ cs.all Char.isDigit then some (digitsVal cs 0) else none

/-- Parse one date text in the `YYYY-MM-DD` form the dataset uses; `none`
models a value `pd.to_datetime` cannot parse. -/
def parseDate (s : String) : Option CalDate :=
  match splitDash s.toList with
  | [ys, ms, ds] =>
    match parseNatDigits ys, parseNatDigits ms, parseNatDigits ds with
    | some y, some m, some d =>
        if 1 ≤ m ∧ m ≤ 12 ∧ 1 ≤ d ∧ d ≤ 31 then
          some { year := y, month := m, day := d }
        else none
    | _, _, _ => none
  | _ => none

/-- `pd.to_datetime` on one cell: missing text becomes NaT, parseable text a
date, unparseable text an exception (`none`). -/
def parseDateCell : DateVal → Option DateVal
  | DateVal.raw none => some (DateVal.parsed none)
  | DateVal.raw (some s) => (parseDate s).map (fun d => DateVal.parsed (some d))
  | DateVal.parsed d => some (DateVal.parsed d)

/-- Column selection and `.copy()` (lines 38-43): keep the five columns; the
`vaccination_rate` column does not exist yet (placeholder `PVal.nan`). -/
def selectRow (r : RawRow) : ProcessedRow :=
  { location := r.location, date := DateVal.raw r.date,
    people_vaccinated := r.people_vaccinated,
    people_fully_vaccinated := r.people_fully_vaccinated,
    population := r.population, vaccination_rate := PVal.nan }

/-- The per-row effect of line 50 on the parseable path (the unparseable
path raises instead, see `transform`). -/
def parseRowDate (r : ProcessedRow) : ProcessedRow :=
  { r with date := (parseDateCell r.date).getD (DateVal.parsed none) }

/-- Round to two decimal places, as `.round(2)` does. The tie-breaking rule
of `round` is irrelevant to the claims: code and spec formula are compared
through this same function. -/
def round2dp (q : ℚ) : ℚ := (round (q * 100) : ℤ) / 100

/-- Pandas cell division `people_fully_vaccinated / population`: any missing
operand gives NaN; division by zero gives a signed infinity (or NaN for
`0 / 0`); otherwise exact division. -/
def divCell : Option ℚ → Option ℚ → PVal
  | none, _ => PVal.nan
  | some _, none => PVal.nan
  | some f, some p =>
      if p = 0 then
        if 0 < f then PVal.pinf else if f < 0 then PVal.ninf else PVal.nan
      else PVal.num (f / p)

/-- Multiplication of a pandas value by a constant (`* 100` at line 55). -/
def mulConst : PVal → ℚ → PVal
  | PVal.num q, c => PVal.num (q * c)
  | PVal.pinf, c => if 0 < c then PVal.pinf else if c < 0 then PVal.ninf else PVal.nan
  | PVal.ninf, c => if 0 < c then PVal.ninf else if c < 0 then PVal.pinf else PVal.nan
  | PVal.nan, _ => PVal.nan

/-- `.round(2)` (line 56): rounds finite values, leaves NaN and infinities. -/
def roundP : PVal → PVal
  | PVal.num q => PVal.num (round2dp q)
  | v => v

/-- Lines 53-56: `(people_fully_vaccinated / population * 100).round(2)`. -/
def rateOf (pfv pop : Option ℚ) : PVal :=
  roundP (mulConst (divCell pfv pop) 100)

/-- Line 53: create the `vaccination_rate` column. -/
def computeRate (r : ProcessedRow) : ProcessedRow :=
  { r with vaccination_rate := rateOf r.people_fully_vaccinated r.population }

/-- `fillna` on `vaccination_rate`: NaN becomes 0; infinities are not null in
pandas and are left alone. -/
def fillP : PVal → PVal
  | PVal.nan => PVal.num 0
  | v => v

/-- Lines 59-63: `fillna({people_vaccinated: 0, people_fully_vaccinated: 0,
vaccination_rate: 0})`.  `location`, `date` and `population` are untouched. -/
def fillRow (r : ProcessedRow) : ProcessedRow :=
  { r with
    people_vaccinated := some (r.people_vaccinated.getD 0),
    people_fully_vaccinated := some (r.people_fully_vaccinated.getD 0),
    vaccination_rate := fillP r.vaccination_rate }

/-- The happy-path row pipeline of `transform` (lines 50-66): parse dates,
compute the rate, fill missing values, then `dropna(subset=[location])`. -/
def transformRows (rows : List RawRow) : List ProcessedRow :=
  ((((rows.map selectRow).map parseRowDate).map computeRate).map fillRow).filter
    (fun r => r.location.isSome)

/-- The full per-row transformation applied to the rows that survive. -/
def procRowAll (r : RawRow) : ProcessedRow :=
  fillRow (computeRate (parseRowDate (selectRow r)))

/-- `VaccinationDataETL.transform` (lines 26-69).  Returns the outcome (a
boolean return, or an uncaught exception from `pd.to_datetime` at line 50),
the updated instance state and the console output.  The column list is
printed (line 34) before the selection is attempted; a `KeyError` from the
selection is caught and reported with the missing column names (lines
44-47); an unparseable date raises out of the method, after
`self.processed_data` was already assigned the selected copy at line 38. -/
def transform (st : ETLState) : StageOutcome × ETLState × List LogEntry :=
  match st.raw_data with
  | none => (StageOutcome.ret false, st, [LogEntry.noDataToTransform])
  | some rd =>
    if missingColumns rd = [] then
      if (rd.rows.map selectRow).all (fun r => (parseDateCell r.date).isSome) then
        (StageOutcome.ret true,
         { st with processed_data := some (transformRows rd.rows) },
         [LogEntry.availableColumns rd.columns,
          LogEntry.transformedRecords (transformRows rd.rows).length])
      else
        (StageOutcome.exn,
         { st with processed_data := some (rd.rows.map selectRow) },
         [LogEntry.availableColumns rd.columns])
    else
      (StageOutcome.ret false, st,
       [LogEntry.availableColumns rd.columns,
        LogEntry.missingColumn (missingColumns rd),
        LogEntry.checkColumnName])

/-- `to_sql(vaccination_data, conn, if_exists=replace)` (lines 84-89):
dropping and recreating the table also drops any index that was on it. -/
def to_sql_replace (pd : List ProcessedRow) (_db : DB) : DB :=
  { vaccination_data := some pd, idx_location_date := false }

/-- `CREATE INDEX idx_location_date ...` (lines 92-94): raises (here `none`)
when the index already exists, otherwise records it. -/
def create_index (db : DB) : Option DB :=
  if db.idx_location_date then none
  else some { db with idx_location_date := true }

/-- `VaccinationDataETL.load` (lines 71-102): guard on missing processed
data, replace the table, create the index; any exception is caught and
reported. -/
def load (st : ETLState) (dbPath : String) (db : DB) : Bool × DB × List LogEntry :=
  match st.processed_data with
  | none => (false, db, [LogEntry.noProcessedData])
  | some pd =>
    let db1 := to_sql_replace pd db
    match create_index db1 with
    | none => (false, db1, [LogEntry.errorLoading])
    | some db2 => (true, db2, [LogEntry.dataLoaded dbPath])

/-- What one pipeline run produces: the outcome of `run_etl_pipeline`, the
final instance state and database, the stages that were invoked (in order),
and the console output. -/
structure RunResult where
  outcome : StageOutcome
  state : ETLState
  db : DB
  stages : List Stage
  log : List LogEntry

/-- `VaccinationDataETL.run_etl_pipeline` (lines 104-124).  `start_time` is
taken at line 109, but the duration print at line 122 is reached only after
`load` returns: the early `return False` paths at lines 113 and 117 skip it,
and an exception from `transform` propagates before it. -/
def run_etl_pipeline (st : ETLState) (w : HttpWorld) (db : DB) : RunResult :=
  let e := extract st w
  if e.success then
    let t := transform e.state
    match t.fst with
    | StageOutcome.ret true =>
        let l := load t.snd.fst "vaccination_data.db" db
        { outcome := StageOutcome.ret l.fst, state := t.snd.fst, db := l.snd.fst,
          stages := [Stage.extractS, Stage.transformS, Stage.loadS],
          log := LogEntry.startingPipeline ::
            (e.log ++ t.snd.snd ++ l.snd.snd ++ [LogEntry.pipelineDuration]) }
    | StageOutcome.ret false =>
        { outcome := StageOutcome.ret false, state := t.snd.fst, db := db,
          stages := [Stage.extractS, Stage.transformS],
          log := LogEntry.startingPipeline :: (e.log ++ t.snd.snd) }
    | StageOutcome.exn =>
        { outcome := StageOutcome.exn, state := t.snd.fst, db := db,
          stages := [Stage.extractS, Stage.transformS],
          log := LogEntry.startingPipeline :: (e.log ++ t.snd.snd) }
  else
    { outcome := StageOutcome.ret false, state := e.state, db := db,
      stages := [Stage.extractS],
      log := LogEntry.startingPipeline :: e.log }

/-! Concrete fixtures used by witnesses and counterexamples. -/

/-- A dataset with the five required columns and one fully populated row. -/
def rdEx : RawDataset :=
  { columns := requiredColumns,
    rows := [{ location := some "USA", date := some "2021-01-01",
               people_vaccinated := some 100, people_fully_vaccinated := some 50,
               population := some 1000 }] }

/-- The processed row `transform` produces from the row of `rdEx`. -/
def rEx : ProcessedRow :=
  { location := some "USA", date := DateVal.parsed (some { year := 2021, month := 1, day := 1 }),
    people_vaccinated := some 100, people_fully_vaccinated := some 50,
    population := some 1000, vaccination_rate := PVal.num 5 }

/-- Pipeline state holding `rdEx` as the extracted data. -/
def stEx : ETLState := { url := "u", raw_data := some rdEx, processed_data := none }

/-- A dataset whose row is missing both counts (`people_vaccinated`,
`people_fully_vaccinated`); its rate is uncomputable. -/
def rdFill : RawDataset :=
  { columns := requiredColumns,
    rows := [{ location := some "FRA", date := some "2021-01-01",
               people_vaccinated := none, people_fully_vaccinated := none,
               population := some 500 }] }

/-- The processed row `transform` produces from the row of `rdFill`. -/
def rFill : ProcessedRow :=
  { location := some "FRA", date := DateVal.parsed (some { year := 2021, month := 1, day := 1 }),
    people_vaccinated := some 0, people_fully_vaccinated := some 0,
    population := some 500, vaccination_rate := PVal.num 0 }

/-- Pipeline state holding `rdFill` as the extracted data. -/
def stFill : ETLState := { url := "u", raw_data := some rdFill, processed_data := none }

/-- A dataset with one located row and one row whose `location` is missing. -/
def rdLoc : RawDataset :=
  { columns := requiredColumns,
    rows := [{ location := some "USA", date := some "2021-01-01",
               people_vaccinated := some 100, people_fully_vaccinated := some 50,
               population := some 1000 },
             { location := none, date := some "2021-01-02",
               people_vaccinated := some 1, people_fully_vaccinated := some 1,
               population := some 10 }] }

/-- Pipeline state holding `rdLoc` as the extracted data. -/
def stLoc : ETLState := { url := "u", raw_data := some rdLoc, processed_data := none }

/-- A dataset lacking the `population` column. -/
def rdMiss : RawDataset :=
  { columns := ["location", "date", "people_vaccinated", "people_fully_vaccinated"],
    rows := [] }

/-- Pipeline state holding `rdMiss` as the extracted data. -/
def stMiss : ETLState := { url := "u", raw_data := some rdMiss, processed_data := none }

/-- A dataset whose row carries a date `pd.to_datetime` cannot parse. -/
def rdBadDate : RawDataset :=
  { columns := requiredColumns,
    rows := [{ location := some "X", date := some "garbage",
               people_vaccinated := none, people_fully_vaccinated := none,
               population := none }] }

/-- A fresh pipeline state, before any stage ran. -/
def stEmpty : ETLState := { url := "u", raw_data := none, processed_data := none }

/-- Pipeline state holding processed data, ready for `load`. -/
def stLoad : ETLState := { url := "u", raw_data := none, processed_data := some [rEx] }

/-- An empty destination database. -/
def dbEmpty : DB := { vaccination_data := none, idx_location_date := false }

/-- A destination database left over from an earlier run: table and index
both present. -/
def dbOld : DB := { vaccination_data := some [rFill, rEx], idx_location_date := true }

/-- A response with a success status whose body parses to `rdEx`. -/
def wOk : HttpWorld := { resp := { status := 200, csv := some rdEx } }

/-- A response with a non-success status. -/
def wBad : HttpWorld := { resp := { status := 404, csv := none } }

/-- A success response whose body parses to the unparseable-date dataset. -/
def wBadDate : HttpWorld := { resp := { status := 200, csv := some rdBadDate } }

/-- A success response whose body parses to the dataset missing `population`. -/
def wMiss : HttpWorld := { resp := { status := 200, csv := some rdMiss } }

/-! Helper lemmas. -/

/-- Filtering after a map is mapping after filtering the preimage predicate. -/
theorem filter_map_comm {α β : Type} (f : α → β) (p : β → Bool) (l : List α) :
    (l.map f).filter p = (l.filter (fun a => p (f a))).map f := by
  induction l with
  | nil => rfl
  | cons a t ih =>
      by_cases h : p (f a) = true <;> simp [List.filter, h, ih]

/-- Every step of the row pipeline leaves `location` unchanged. -/
theorem procRowAll_location (r : RawRow) : (procRowAll r).location = r.location := rfl

/-- The happy-path row pipeline is: keep the located rows, process each once. -/
theorem transformRows_eq (rows : List RawRow) :
    transformRows rows =
      (rows.filter (fun r => r.location.isSome)).map procRowAll := by
  unfold transformRows
  rw [List.map_map, List.map_map, List.map_map, filter_map_comm]
  rfl

/-- Inversion for a successful `transform`: the raw data was present and the
processed data is exactly the row pipeline applied to its rows. -/
theorem transform_true_inv (st : ETLState) (pd : List ProcessedRow)
    (h1 : (transform st).fst = StageOutcome.ret true)
    (h2 : (transform st).snd.fst.processed_data = some pd) :
    ∃ rd, st.raw_data = some rd ∧ pd = transformRows rd.rows := by
  cases hraw : st.raw_data with
  | none => rw [transform, hraw] at h1; exact absurd h1 (by simp)
  | some rd =>
      simp only [transform, hraw] at h1 h2
      by_cases hm : missingColumns rd = []
      · rw [if_pos hm] at h1 h2
        by_cases hall :
            ((rd.rows.map selectRow).all fun r => (parseDateCell r.date).isSome) = true
        · rw [if_pos hall] at h2
          refine ⟨rd, rfl, ?_⟩
          simp at h2
          exact h2.symm
        · rw [if_neg hall] at h1
          exact absurd h1 (by simp)
      · rw [if_neg hm] at h1
        exact absurd h1 (by simp)

/-- Evaluation of a successful `transform` from its three preconditions. -/
theorem transform_eval (st : ETLState) (rd : RawDataset)
    (hraw : st.raw_data = some rd)
    (hm : missingColumns rd = [])
    (hall : ((rd.rows.map selectRow).all fun r => (parseDateCell r.date).isSome) = true) :
    transform st =
      (StageOutcome.ret true,
       { st with processed_data := some (transformRows rd.rows) },
       [LogEntry.availableColumns rd.columns,
        LogEntry.transformedRecords (transformRows rd.rows).length]) := by
  simp [transform, hraw, hm, hall]

/-- Evaluation of the full row pipeline on a row with a parseable date. -/
theorem procRowAll_eval (loc : Option String) (s : String) (d : CalDate)
    (pv pfv pop : Option ℚ) (hd : parseDate s = some d) :
    procRowAll { location := loc, date := some s, people_vaccinated := pv,
                 people_fully_vaccinated := pfv, population := pop } =
      { location := loc, date := DateVal.parsed (some d),
        people_vaccinated := some (pv.getD 0),
        people_fully_vaccinated := some (pfv.getD 0),
        population := pop,
        vaccination_rate := fillP (rateOf pfv pop) } := by
  simp [procRowAll, selectRow, parseRowDate, parseDateCell, computeRate, fillRow, hd]

/-- With a nonzero population the computed rate is the rounded percentage. -/
theorem rateOf_pos (f p : ℚ) (hp : p ≠ 0) :
    rateOf (some f) (some p) = PVal.num (round2dp (f / p * 100)) := by
  simp [rateOf, divCell, mulConst, roundP, hp]

/-- A missing numerator makes the computed rate NaN. -/
theorem rateOf_none_left (pop : Option ℚ) : rateOf none pop = PVal.nan := by
  simp [rateOf, divCell, mulConst, roundP]

/-- Concrete rate of the USA fixture row: 50 of 1000 is 5 percent. -/
theorem rateOf_50_1000 : rateOf (some (50 : ℚ)) (some 1000) = PVal.num 5 := by
  rw [rateOf_pos 50 1000 (by norm_num)]
  norm_num [round2dp]

/-- The USA fixture row processes to `rEx`. -/
theorem procRow_USA :
    procRowAll { location := some "USA", date := some "2021-01-01",
                 people_vaccinated := some 100, people_fully_vaccinated := some 50,
                 population := some 1000 } = rEx := by
  rw [procRowAll_eval (some "USA") "2021-01-01" { year := 2021, month := 1, day := 1 }
    (some 100) (some 50) (some 1000) (by decide)]
  simp [rEx, rateOf_50_1000, fillP]

/-- The FRA fixture row processes to `rFill`. -/
theorem procRow_FRA :
    procRowAll { location := some "FRA", date := some "2021-01-01",
                 people_vaccinated := none, people_fully_vaccinated := none,
                 population := some 500 } = rFill := by
  rw [procRowAll_eval (some "FRA") "2021-01-01" { year := 2021, month := 1, day := 1 }
    none none (some 500) (by decide)]
  simp [rFill, rateOf_none_left, fillP]

/-- `transform` turns the rows of `rdEx` into the single row `rEx`. -/
theorem transformRows_rdEx : transformRows rdEx.rows = [rEx] := by
  rw [transformRows_eq]
  simp [rdEx, procRow_USA]

/-- `transform` turns the rows of `rdFill` into the single row `rFill`. -/
theorem transformRows_rdFill : transformRows rdFill.rows = [rFill] := by
  rw [transformRows_eq]
  simp [rdFill, procRow_FRA]

/-- `transform` keeps only the located row of `rdLoc`, yielding `rEx`. -/
theorem transformRows_rdLoc : transformRows rdLoc.rows = [rEx] := by
  rw [transformRows_eq]
  simp [rdLoc, procRow_USA]

/-- `fillna` and the rate step leave `population` unchanged. -/
theorem fill_population (r : ProcessedRow) :
    (fillRow (computeRate r)).population = r.population := rfl

/-- After `fillna`, `people_fully_vaccinated` is the original value with
missing defaulted to 0. -/
theorem fill_pfv (r : ProcessedRow) :
    (fillRow (computeRate r)).people_fully_vaccinated
      = some (r.people_fully_vaccinated.getD 0) := rfl

/-- After `fillna`, the rate field is the filled value of the computed rate. -/
theorem fill_rate (r : ProcessedRow) :
    (fillRow (computeRate r)).vaccination_rate
      = fillP (rateOf r.people_fully_vaccinated r.population) := rfl

/-- The fill step never leaves a NaN behind. -/
theorem fillP_ne_nan (v : PVal) : fillP v ≠ PVal.nan := by
  cases v <;> simp [fillP]

/-- Core rate computation: with a positive population the filled rate is
exactly the rounded percentage of the (filled) numerator. -/
theorem fill_compute_rate (r : ProcessedRow) (p f : ℚ)
    (hp : (fillRow (computeRate r)).population = some p) (hp0 : 0 < p)
    (hf : (fillRow (computeRate r)).people_fully_vaccinated = some f) :
    (fillRow (computeRate r)).vaccination_rate = PVal.num (round2dp (f / p * 100)) := by
  rw [fill_population] at hp
  rw [fill_pfv] at hf
  rw [fill_rate, hp]
  cases hpf : r.people_fully_vaccinated with
  | some f0 =>
      rw [hpf] at hf
      have hff : f0 = f := by simpa using hf
      subst hff
      have hpne : p ≠ 0 := ne_of_gt hp0
      simp [rateOf, divCell, mulConst, roundP, fillP, hpne]
  | none =>
      rw [hpf] at hf
      have hf0 : f = 0 := by simpa using hf.symm
      subst hf0
      simp [rateOf, divCell, mulConst, roundP, fillP, round2dp]

/-- A zero (filled) numerator or a missing population always yields rate 0. -/
theorem fill_compute_rate_zero (r : ProcessedRow)
    (h : (fillRow (computeRate r)).people_fully_vaccinated = some 0 ∨
         (fillRow (computeRate r)).population = none) :
    (fillRow (computeRate r)).vaccination_rate = PVal.num 0 := by
  rw [fill_rate]
  rcases hpf : r.people_fully_vaccinated with _ | f
  · simp [rateOf, divCell, mulConst, roundP, fillP]
  · rcases hpop : r.population with _ | p
    · simp [rateOf, divCell, mulConst, roundP, fillP]
    · rcases h with h | h
      · rw [fill_pfv, hpf] at h
        have hf : f = 0 := by simpa using h
        subst hf
        by_cases hp : p = 0
        · simp [rateOf, divCell, mulConst, roundP, fillP, hp]
        · simp [rateOf, divCell, mulConst, roundP, fillP, hp, round2dp]
      · rw [fill_population, hpop] at h
        exact absurd h (by simp)

/-- C1: for every row of the transformed dataset whose population is positive
and whose `people_fully_vaccinated` is present, `vaccination_rate` equals
`round(people_fully_vaccinated / population * 100, 2)` exactly. -/
theorem transform_vaccination_rate_formula
    (st : ETLState) (pd : List ProcessedRow) (r : ProcessedRow) (p f : ℚ)
    (h1 : (transform st).fst = StageOutcome.ret true)
    (h2 : (transform st).snd.fst.processed_data = some pd)
    (hr : r ∈ pd)
    (hp : r.population = some p) (hp0 : 0 < p)
    (hf : r.people_fully_vaccinated = some f) :
    r.vaccination_rate = PVal.num (round2dp (f / p * 100)) := by
  obtain ⟨rd, hraw, hpd⟩ := transform_true_inv st pd h1 h2
  subst hpd
  rw [transformRows_eq] at hr
  obtain ⟨r0, hr0, hre⟩ := List.mem_map.mp hr
  subst hre
  have hgoal := fill_compute_rate (parseRowDate (selectRow r0)) p f
  simp only [procRowAll] at hp hf ⊢
  exact hgoal hp hp0 hf

/-- Witness for C1 on the concrete dataset `rdEx`: the USA row yields the
rounded percentage 50 / 1000 * 100. -/
theorem transform_vaccination_rate_formula_witness :
    (transform stEx).fst = StageOutcome.ret true ∧
    (transform stEx).snd.fst.processed_data = some [rEx] ∧
    rEx ∈ [rEx] ∧ rEx.population = some 1000 ∧ (0 : ℚ) < 1000 ∧
    rEx.people_fully_vaccinated = some 50 ∧
    rEx.vaccination_rate = PVal.num (round2dp (50 / 1000 * 100)) := by
  have ht := transform_eval stEx rdEx rfl (by decide) (by decide)
  have h1 : (transform stEx).fst = StageOutcome.ret true := by rw [ht]
  have h2 : (transform stEx).snd.fst.processed_data = some [rEx] := by
    rw [ht]
    show some (transformRows rdEx.rows) = some [rEx]
    rw [transformRows_rdEx]
  refine ⟨h1, h2, by simp, rfl, by norm_num, rfl, ?_⟩
  exact transform_vaccination_rate_formula stEx [rEx] rEx 1000 50
    h1 h2 (by simp) rfl (by norm_num) rfl

/-- C2: after a successful transform every row has non-null
`people_vaccinated`, `people_fully_vaccinated` and `vaccination_rate` (the
fill replaces every NaN); rows whose rate was uncomputable — a missing
numerator (visible as the filled value 0) or a missing population — end with
rate 0. -/
theorem transform_output_non_null
    (st : ETLState) (pd : List ProcessedRow)
    (h1 : (transform st).fst = StageOutcome.ret true)
    (h2 : (transform st).snd.fst.processed_data = some pd) :
    ∀ r ∈ pd,
      (r.people_vaccinated.isSome ∧ r.people_fully_vaccinated.isSome ∧
        r.vaccination_rate ≠ PVal.nan) ∧
      ((r.people_fully_vaccinated = some 0 ∨ r.population = none) →
        r.vaccination_rate = PVal.num 0) := by
  obtain ⟨rd, hraw, hpd⟩ := transform_true_inv st pd h1 h2
  subst hpd
  intro r hr
  rw [transformRows_eq] at hr
  obtain ⟨r0, hr0, hre⟩ := List.mem_map.mp hr
  subst hre
  constructor
  · refine ⟨?_, ?_, ?_⟩
    · simp [procRowAll, fillRow]
    · simp [procRowAll, fillRow]
    · simp only [procRowAll]
      rw [fill_rate]
      exact fillP_ne_nan _
  · intro h
    simp only [procRowAll] at h ⊢
    exact fill_compute_rate_zero _ h

/-- Witness for C2 on the concrete dataset `rdFill`: the FRA row, missing
both counts, comes out with counts 0 and rate 0. -/
theorem transform_output_non_null_witness :
    (transform stFill).fst = StageOutcome.ret true ∧
    (transform stFill).snd.fst.processed_data = some [rFill] ∧
    rFill ∈ [rFill] ∧
    (rFill.people_vaccinated.isSome ∧ rFill.people_fully_vaccinated.isSome ∧
      rFill.vaccination_rate ≠ PVal.nan) ∧
    rFill.vaccination_rate = PVal.num 0 := by
  have ht := transform_eval stFill rdFill rfl (by decide) (by decide)
  have h1 : (transform stFill).fst = StageOutcome.ret true := by rw [ht]
  have h2 : (transform stFill).snd.fst.processed_data = some [rFill] := by
    rw [ht]
    show some (transformRows rdFill.rows) = some [rFill]
    rw [transformRows_rdFill]
  refine ⟨h1, h2, by simp, ?_, ?_⟩
  · exact (transform_output_non_null stFill [rFill] h1 h2 rFill (by simp)).1
  · exact (transform_output_non_null stFill [rFill] h1 h2 rFill (by simp)).2
      (Or.inl rfl)

/-- C3: a successful transform outputs no row with a missing `location`, and
drops rows for no other reason — the output is exactly the located input
rows, each processed once, in order. -/
theorem transform_row_filtering
    (st : ETLState) (rd : RawDataset) (pd : List ProcessedRow)
    (hraw : st.raw_data = some rd)
    (h1 : (transform st).fst = StageOutcome.ret true)
    (h2 : (transform st).snd.fst.processed_data = some pd) :
    (∀ r ∈ pd, r.location.isSome) ∧
    pd = (rd.rows.filter (fun r => r.location.isSome)).map procRowAll := by
  obtain ⟨rd2, hraw2, hpd⟩ := transform_true_inv st pd h1 h2
  have hrd : rd2 = rd := by
    rw [hraw] at hraw2
    exact (Option.some.inj hraw2).symm
  subst hrd
  subst hpd
  rw [transformRows_eq]
  refine ⟨?_, rfl⟩
  intro r hr
  obtain ⟨r0, hr0, hre⟩ := List.mem_map.mp hr
  subst hre
  rw [procRowAll_location]
  exact (List.mem_filter.mp hr0).2

/-- Witness for C3 on the concrete dataset `rdLoc`: the located USA row
survives as the only output row; the location-less row is dropped. -/
theorem transform_row_filtering_witness :
    stLoc.raw_data = some rdLoc ∧
    (transform stLoc).fst = StageOutcome.ret true ∧
    (transform stLoc).snd.fst.processed_data = some [rEx] ∧
    (∀ r ∈ [rEx], r.location.isSome) ∧
    [rEx] = (rdLoc.rows.filter (fun r => r.location.isSome)).map procRowAll := by
  have ht := transform_eval stLoc rdLoc rfl (by decide) (by decide)
  have h1 : (transform stLoc).fst = StageOutcome.ret true := by rw [ht]
  have h2 : (transform stLoc).snd.fst.processed_data = some [rEx] := by
    rw [ht]
    show some (transformRows rdLoc.rows) = some [rEx]
    rw [transformRows_rdLoc]
  have h := transform_row_filtering stLoc rdLoc [rEx] rfl h1 h2
  exact ⟨rfl, h1, h2, h.1, h.2⟩

/-- C10: `transform` never modifies the raw dataset held by the pipeline —
the column selection at line 38 operates on a `.copy()`. -/
theorem transform_preserves_raw_data (st : ETLState) :
    (transform st).snd.fst.raw_data = st.raw_data := by
  cases hraw : st.raw_data with
  | none => simp [transform, hraw]
  | some rd =>
      by_cases hm : missingColumns rd = []
      · by_cases hall :
            ((rd.rows.map selectRow).all fun r => (parseDateCell r.date).isSome) = true
        · simp [transform, hraw, hm, hall]
        · simp [transform, hraw, hm, hall]
      · simp [transform, hraw, hm]

/-- C4: `load` is idempotent against the persisted state — run twice with the
same processed dataset, both runs succeed, the second leaves the database
exactly as the first, the row count equals the dataset size both times (no
accumulation), and the composite index exists both times. -/
theorem load_idempotent
    (st : ETLState) (pd : List ProcessedRow) (dbPath : String) (db : DB)
    (h : st.processed_data = some pd) :
    (load st dbPath db).fst = true ∧
    (load st dbPath (load st dbPath db).snd.fst).fst = true ∧
    (load st dbPath (load st dbPath db).snd.fst).snd.fst = (load st dbPath db).snd.fst ∧
    dbRowCount (load st dbPath db).snd.fst = some pd.length ∧
    dbRowCount (load st dbPath (load st dbPath db).snd.fst).snd.fst = some pd.length ∧
    (load st dbPath db).snd.fst.idx_location_date = true ∧
    (load st dbPath (load st dbPath db).snd.fst).snd.fst.idx_location_date = true := by
  simp [load, h, to_sql_replace, create_index, dbRowCount]

/-- Witness for C4: loading the one-row dataset twice over a database left by
an earlier run gives the same one-row table and index both times. -/
theorem load_idempotent_witness :
    stLoad.processed_data = some [rEx] ∧
    (load stLoad "vaccination_data.db" dbOld).fst = true ∧
    (load stLoad "vaccination_data.db"
        (load stLoad "vaccination_data.db" dbOld).snd.fst).snd.fst
      = (load stLoad "vaccination_data.db" dbOld).snd.fst ∧
    dbRowCount (load stLoad "vaccination_data.db" dbOld).snd.fst = some 1 := by
  have h := load_idempotent stLoad [rEx] "vaccination_data.db" dbOld rfl
  exact ⟨rfl, h.1, h.2.2.1, h.2.2.2.1⟩

/-- C5: the pipeline short-circuits — if extract reports failure the run is a
failure, the database is untouched, and neither transform nor load is
invoked; if transform reports failure the run is a failure, the database is
untouched, and load is not invoked. -/
theorem pipeline_short_circuit
    (st : ETLState) (w : HttpWorld) (db : DB)
    (h : (extract st w).success = false ∨
         ((extract st w).success = true ∧
          (transform (extract st w).state).fst = StageOutcome.ret false)) :
    (run_etl_pipeline st w db).outcome = StageOutcome.ret false ∧
    (run_etl_pipeline st w db).db = db ∧
    Stage.loadS ∉ (run_etl_pipeline st w db).stages ∧
    ((extract st w).success = false →
      Stage.transformS ∉ (run_etl_pipeline st w db).stages) := by
  rcases h with h | ⟨he, ht⟩
  · simp [run_etl_pipeline, h]
  · simp [run_etl_pipeline, he, ht]

/-- Witness for C5: a 404 response halts the run before transform and load,
with the database untouched and the overall result a failure. -/
theorem pipeline_short_circuit_witness :
    (extract stEmpty wBad).success = false ∧
    (run_etl_pipeline stEmpty wBad dbEmpty).outcome = StageOutcome.ret false ∧
    (run_etl_pipeline stEmpty wBad dbEmpty).db = dbEmpty ∧
    Stage.loadS ∉ (run_etl_pipeline stEmpty wBad dbEmpty).stages ∧
    Stage.transformS ∉ (run_etl_pipeline stEmpty wBad dbEmpty).stages := by
  have he : (extract stEmpty wBad).success = false := by decide
  have h := pipeline_short_circuit stEmpty wBad dbEmpty (Or.inl he)
  exact ⟨he, h.1, h.2.1, h.2.2.1, h.2.2.2 he⟩

/-- C6: with any required column absent, transform returns failure, the
available columns are reported before the missing-column message that names
exactly the absent columns, and a pipeline run fetching such data performs
no database write. -/
theorem transform_missing_column
    (st : ETLState) (rd : RawDataset)
    (hraw : st.raw_data = some rd)
    (hm : missingColumns rd ≠ []) :
    transform st = (StageOutcome.ret false, st,
      [LogEntry.availableColumns rd.columns,
       LogEntry.missingColumn (missingColumns rd),
       LogEntry.checkColumnName]) ∧
    (∀ (st0 : ETLState) (w : HttpWorld) (db : DB),
      statusOk w.resp.status = true → w.resp.csv = some rd →
      (run_etl_pipeline st0 w db).outcome = StageOutcome.ret false ∧
      (run_etl_pipeline st0 w db).db = db ∧
      Stage.loadS ∉ (run_etl_pipeline st0 w db).stages) := by
  constructor
  · simp [transform, hraw, hm]
  · intro st0 w db hs hc
    have he : extract st0 w =
        { success := true, state := { st0 with raw_data := some rd },
          getCount := 2, log := [LogEntry.extractedRecords rd.rows.length] } := by
      simp [extract, hs, hc]
    have ht : (transform { st0 with raw_data := some rd }).fst
        = StageOutcome.ret false := by
      simp [transform, hm]
    simp [run_etl_pipeline, he, ht]

/-- Witness for C6: a dataset lacking `population` makes transform fail with
that column named after the available columns are reported, and a run over it
leaves the database untouched. -/
theorem transform_missing_column_witness :
    missingColumns rdMiss = ["population"] ∧
    transform stMiss = (StageOutcome.ret false, stMiss,
      [LogEntry.availableColumns rdMiss.columns,
       LogEntry.missingColumn (missingColumns rdMiss),
       LogEntry.checkColumnName]) ∧
    (run_etl_pipeline stEmpty wMiss dbEmpty).outcome = StageOutcome.ret false ∧
    (run_etl_pipeline stEmpty wMiss dbEmpty).db = dbEmpty ∧
    Stage.loadS ∉ (run_etl_pipeline stEmpty wMiss dbEmpty).stages := by
  have h := transform_missing_column stMiss rdMiss rfl (by decide)
  have h2 := h.2 stEmpty wMiss dbEmpty (by decide) rfl
  exact ⟨by decide, h.1, h2.1, h2.2.1, h2.2.2⟩

/-- The extract stage never prints the pipeline-duration message. -/
theorem duration_not_in_extract_log (st : ETLState) (w : HttpWorld) :
    LogEntry.pipelineDuration ∉ (extract st w).log := by
  unfold extract
  by_cases h : statusOk w.resp.status = false
  · simp [h]
  · cases hc : w.resp.csv <;> simp [h, hc]

/-- The transform stage never prints the pipeline-duration message. -/
theorem duration_not_in_transform_log (st : ETLState) :
    LogEntry.pipelineDuration ∉ (transform st).snd.snd := by
  cases hraw : st.raw_data with
  | none => simp [transform, hraw]
  | some rd =>
      by_cases hm : missingColumns rd = []
      · by_cases hall :
            ((rd.rows.map selectRow).all fun r => (parseDateCell r.date).isSome) = true
        · simp [transform, hraw, hm, hall]
        · simp [transform, hraw, hm, hall]
      · simp [transform, hraw, hm]

/-- C7 counterexample: on an extraction-failure run no duration is reported,
refuting the claim that the wall-clock duration is reported on every outcome
path. -/
theorem pipeline_duration_counterexample :
    (run_etl_pipeline stEmpty wBad dbEmpty).outcome = StageOutcome.ret false ∧
    LogEntry.pipelineDuration ∉ (run_etl_pipeline stEmpty wBad dbEmpty).log := by
  decide

/-- C7 amended: the duration report is emitted exactly on the runs where
extract succeeds and transform returns success (whether or not load then
succeeds); the extract-failure, transform-failure and uncaught-exception
paths report none. -/
theorem pipeline_duration_iff (st : ETLState) (w : HttpWorld) (db : DB) :
    LogEntry.pipelineDuration ∈ (run_etl_pipeline st w db).log ↔
      ((extract st w).success = true ∧
       (transform (extract st w).state).fst = StageOutcome.ret true) := by
  by_cases he : (extract st w).success = true
  · cases ht : (transform (extract st w).state).fst with
    | ret b =>
        cases b
        · simp [run_etl_pipeline, he, ht, duration_not_in_extract_log,
            duration_not_in_transform_log]
        · simp [run_etl_pipeline, he, ht]
    | exn =>
        simp [run_etl_pipeline, he, ht, duration_not_in_extract_log,
          duration_not_in_transform_log]
  · simp [run_etl_pipeline, he, duration_not_in_extract_log]

/-- Witness for the amended C7 at a concrete failing fetch: no duration
entry appears in that run's output. -/
theorem pipeline_duration_iff_witness :
    LogEntry.pipelineDuration ∉ (run_etl_pipeline stEmpty wBad dbEmpty).log := by
  intro hmem
  have h := (pipeline_duration_iff stEmpty wBad dbEmpty).mp hmem
  exact absurd h.1 (by decide)

/-- C8 counterexample: a successful fetch of a five-column dataset holding an
unparseable date makes the whole run end in an uncaught exception — a failure
channel other than console text plus a boolean. -/
theorem transform_uncaught_exception_counterexample :
    (run_etl_pipeline stEmpty wBadDate dbEmpty).outcome = StageOutcome.exn ∧
    Stage.loadS ∉ (run_etl_pipeline stEmpty wBadDate dbEmpty).stages := by
  decide

/-- C8 amended: transform returns `False` only via the data-absence and
missing-column conditions; the one further failure channel is an uncaught
exception, which happens exactly when all columns are present and some row
carries an unparseable date text. -/
theorem transform_failure_channels
    (st : ETLState) (o : StageOutcome) (st1 : ETLState) (lg : List LogEntry)
    (h : transform st = (o, st1, lg)) :
    (o = StageOutcome.ret false →
      st.raw_data = none ∨ ∃ rd, st.raw_data = some rd ∧ missingColumns rd ≠ []) ∧
    (o = StageOutcome.exn →
      ∃ rd, st.raw_data = some rd ∧ missingColumns rd = [] ∧
        ∃ r, r ∈ rd.rows ∧ ∃ s, r.date = some s ∧ parseDate s = none) := by
  cases hraw : st.raw_data with
  | none =>
      simp only [transform, hraw] at h
      have ho := congrArg Prod.fst h
      constructor
      · intro _; exact Or.inl rfl
      · intro hexn; exact absurd (ho.trans hexn) (by simp)
  | some rd =>
      simp only [transform, hraw] at h
      by_cases hm : missingColumns rd = []
      · rw [if_pos hm] at h
        by_cases hall :
            ((rd.rows.map selectRow).all fun r => (parseDateCell r.date).isSome) = true
        · rw [if_pos hall] at h
          have ho := congrArg Prod.fst h
          constructor
          · intro hf; exact absurd (ho.trans hf) (by simp)
          · intro hexn; exact absurd (ho.trans hexn) (by simp)
        · rw [if_neg hall] at h
          have ho := congrArg Prod.fst h
          constructor
          · intro hf; exact absurd (ho.trans hf) (by simp)
          · intro _
            refine ⟨rd, rfl, hm, ?_⟩
            rw [List.all_eq_true] at hall
            push_neg at hall
            obtain ⟨x, hx, hpx⟩ := hall
            obtain ⟨r0, hr0, hxe⟩ := List.mem_map.mp hx
            subst hxe
            cases hdate : r0.date with
            | none =>
                exact absurd (by simp [selectRow, parseDateCell, hdate]) hpx
            | some s =>
                cases hps : parseDate s with
                | none => exact ⟨r0, hr0, s, hdate, hps⟩
                | some d =>
                    exact absurd (by simp [selectRow, parseDateCell, hdate, hps]) hpx
      · rw [if_neg hm] at h
        have ho := congrArg Prod.fst h
        constructor
        · intro _; exact Or.inr ⟨rd, rfl, hm⟩
        · intro hexn; exact absurd (ho.trans hexn) (by simp)

/-- Witness for the amended C8: a fresh state with no raw data returns
`False` via the data-absence condition. -/
theorem transform_failure_channels_witness :
    stEmpty.raw_data = none ∨
      ∃ rd, stEmpty.raw_data = some rd ∧ missingColumns rd ≠ [] := by
  exact (transform_failure_channels stEmpty (StageOutcome.ret false) stEmpty
    [LogEntry.noDataToTransform] rfl).1 rfl

/-- C9 counterexample: on a success status, `extract` issues two GET requests
for the URL — the status check and the fetch inside the CSV reader — not the
single GET the claim states. -/
theorem extract_single_get_counterexample :
    (extract stEmpty wOk).success = true ∧
    ¬ ((extract stEmpty wOk).getCount = 1) := by
  constructor
  · decide
  · decide

/-- C9 amended: `extract` issues one GET for the status check, treats a
non-success status as failure after that single GET, and on a success status
issues a second GET via the CSV reader, whose parsed body becomes the raw
dataset. -/
theorem extract_two_gets (st : ETLState) (w : HttpWorld) :
    (statusOk w.resp.status = false →
      (extract st w).success = false ∧ (extract st w).getCount = 1) ∧
    (statusOk w.resp.status = true →
      (extract st w).getCount = 2 ∧
      ((extract st w).success = true ↔ (w.resp.csv).isSome) ∧
      (∀ rd, w.resp.csv = some rd → (extract st w).state.raw_data = some rd)) := by
  by_cases h : statusOk w.resp.status = false
  · constructor
    · intro _; simp [extract, h]
    · intro h2; rw [h] at h2; exact absurd h2 (by simp)
  · constructor
    · intro hf; exact absurd hf h
    · intro h2
      cases hc : w.resp.csv with
      | none => refine ⟨?_, ?_, ?_⟩ <;> simp [extract, h2, hc]
      | some rd => refine ⟨?_, ?_, ?_⟩ <;> simp [extract, h2, hc]

/-- Witness for the amended C9: a 200 response parsing to `rdEx` costs two
GET requests and lands `rdEx` in the raw-data field. -/
theorem extract_two_gets_witness :
    statusOk wOk.resp.status = true ∧
    (extract stEmpty wOk).getCount = 2 ∧
    (extract stEmpty wOk).state.raw_data = some rdEx := by
  have h := (extract_two_gets stEmpty wOk).2 (by decide)
  exact ⟨by decide, h.1, h.2.2 rdEx rfl⟩

end Covid19Vacc
